import Mathlib

/-!
Verification development for the GeoRhythm per-frame simulation core.

The definitions below are a shallow embedding of the TypeScript source:
  - src/core/physics/types.ts           (state, input, config records)
  - src/core/physics/constants.ts       (PHYSICS, SPEEDS, GRID, HITBOXES, SIZES)
  - src/core/physics/modes/CubeMode.ts
  - src/core/physics/modes/ShipMode.ts
  - src/core/physics/modes/BallMode.ts
  - src/core/collision/AABB.ts
  - src/core/collision/index.ts         (classifier, player collisions, grounded)
  - src/engine/objects/Player.ts        (tick driver, mode switch)
JavaScript numbers are modelled as rationals; JS Math.round, the remainder
operator and Math.PI are modelled explicitly below.  Mutation of the single
PhysicsState record becomes explicit state passing: each statement block of a
source method is one Lean function, applied in the source statement order.
-/

/-- Player mode id, the PlayerModeType union of the source. -/
inductive PlayerModeType
  | cube
  | ship
  | ball
deriving DecidableEq, Repr

/-- Speed tier id, the SpeedModeType union of the source. -/
inductive SpeedModeType
  | slow
  | normal
  | fast
  | faster
  | superFast
deriving DecidableEq, Repr

/-- 2D vector (physics/types.ts, Vector2). -/
structure Vector2 where
  x : ℚ
  y : ℚ
deriving DecidableEq, Repr

/-- Complete physics state for the player (physics/types.ts, PhysicsState). -/
structure PhysicsState where
  position : Vector2
  velocity : Vector2
  isGrounded : Bool
  gravityInverted : Bool
  rotation : ℚ
  angularVelocity : ℚ
  coyoteTimeRemaining : ℚ
  jumpBuffered : Bool
  jumpBufferTimeRemaining : ℚ
  isDead : Bool
  mode : PlayerModeType
  speed : SpeedModeType
deriving DecidableEq, Repr

/-- Input state for a single frame (physics/types.ts, InputState). -/
structure InputState where
  jumpPressed : Bool
  jumpHeld : Bool
  pausePressed : Bool
deriving DecidableEq, Repr

/-- Configuration passed to physics updates (physics/types.ts, PhysicsConfig). -/
structure PhysicsConfig where
  gravity : ℚ
  jumpForce : ℚ
  terminalVelocity : ℚ
  coyoteTime : ℚ
  jumpBuffer : ℚ
deriving DecidableEq, Repr

/-- physics/constants.ts PHYSICS.GRAVITY -/
def PHYSICS.GRAVITY : ℚ := 2600

/-- physics/constants.ts PHYSICS.JUMP_FORCE -/
def PHYSICS.JUMP_FORCE : ℚ := 800

/-- physics/constants.ts PHYSICS.TERMINAL_VELOCITY -/
def PHYSICS.TERMINAL_VELOCITY : ℚ := 1200

/-- physics/constants.ts PHYSICS.COYOTE_TIME -/
def PHYSICS.COYOTE_TIME : ℚ := 8/100

/-- physics/constants.ts PHYSICS.JUMP_BUFFER -/
def PHYSICS.JUMP_BUFFER : ℚ := 1/10

/-- physics/constants.ts PHYSICS.SHIP_GRAVITY_MULTIPLIER -/
def PHYSICS.SHIP_GRAVITY_MULTIPLIER : ℚ := 4/10

/-- physics/constants.ts PHYSICS.SHIP_THRUST_FORCE -/
def PHYSICS.SHIP_THRUST_FORCE : ℚ := 600

/-- physics/constants.ts PHYSICS.CUBE_ROTATION_SPEED -/
def PHYSICS.CUBE_ROTATION_SPEED : ℚ := 360

/-- physics/constants.ts SPEEDS table (pixels/second per speed tier). -/
def SPEEDS : SpeedModeType → ℚ
  | .slow => 25116/100
  | .normal => 31158/100
  | .fast => 38742/100
  | .faster => 468
  | .superFast => 576

/-- physics/constants.ts GRID.UNIT_SIZE -/
def GRID.UNIT_SIZE : ℚ := 40

/-- physics/constants.ts GRID.DEFAULT_GROUND_Y -/
def GRID.DEFAULT_GROUND_Y : ℚ := 12

/-- physics/constants.ts SIZES.PLAYER -/
def SIZES.PLAYER : ℚ := 40

/-- physics/constants.ts HITBOXES.PLAYER_CUBE -/
def HITBOXES.PLAYER_CUBE : ℚ := 9/10

/-- physics/constants.ts HITBOXES.PLAYER_SHIP -/
def HITBOXES.PLAYER_SHIP : ℚ := 85/100

/-- physics/constants.ts HITBOXES.SPIKE -/
def HITBOXES.SPIKE : ℚ := 5/10

/-- physics/constants.ts HITBOXES.ORB -/
def HITBOXES.ORB : ℚ := 75/100

/-- physics/constants.ts HITBOXES.BLOCK -/
def HITBOXES.BLOCK : ℚ := 1

/-- The clamp helper shared by the three mode files:
Math.max(lo, Math.min(hi, value)). -/
def clamp (value lo hi : ℚ) : ℚ := max lo (min hi value)

/-- JS Math.round: round half toward positive infinity, floor (x + 1/2). -/
def jsRound (x : ℚ) : ℤ := ⌊x + 1/2⌋

/-- Truncation toward zero, the rounding JS division-based remainder uses. -/
def ratTrunc (q : ℚ) : ℤ := if 0 ≤ q then ⌊q⌋ else ⌈q⌉

/-- The JS remainder operator a % b (sign of the dividend). -/
def jsRem (a b : ℚ) : ℚ := a - b * (ratTrunc (a / b) : ℚ)

/-- The normalization idiom of the mode files: ((r % 360) + 360) % 360. -/
def normalize360 (r : ℚ) : ℚ := jsRem (jsRem r 360 + 360) 360

/-- The IEEE-754 double value of JS Math.PI, as an exact rational. -/
def MATH_PI : ℚ := 884279719003555/281474976710656

/-- physics/types.ts createDefaultPhysicsState (no overrides; call sites
apply their overrides with a record update). -/
def createDefaultPhysicsState : PhysicsState :=
  { position := ⟨0, 0⟩
    velocity := ⟨0, 0⟩
    isGrounded := false
    gravityInverted := false
    rotation := 0
    angularVelocity := 0
    coyoteTimeRemaining := 0
    jumpBuffered := false
    jumpBufferTimeRemaining := 0
    isDead := false
    mode := .cube
    speed := .normal }

/-- physics/types.ts createDefaultPhysicsConfig (no overrides). -/
def createDefaultPhysicsConfig : PhysicsConfig :=
  { gravity := 2600
    jumpForce := 800
    terminalVelocity := 1200
    coyoteTime := 8/100
    jumpBuffer := 1/10 }

/-- CubeMode.executeJump: velocity to the signed jump impulse, grounded
cleared, coyote timer zeroed, angular velocity set signed by gravity. -/
def cubeExecuteJump (s : PhysicsState) (c : PhysicsConfig) : PhysicsState :=
  { s with
    velocity := { s.velocity with y := c.jumpForce * (if s.gravityInverted then 1 else -1) }
    isGrounded := false
    coyoteTimeRemaining := 0
    angularVelocity :=
      if s.gravityInverted then -PHYSICS.CUBE_ROTATION_SPEED else PHYSICS.CUBE_ROTATION_SPEED }

/-- CubeMode.update lines: apply gravity, then clamp to terminal velocity. -/
def cubeGravityClamp (s : PhysicsState) (deltaTime : ℚ) (c : PhysicsConfig) : PhysicsState :=
  let gravityDirection : ℚ := if s.gravityInverted then -1 else 1
  let vy := s.velocity.y + c.gravity * gravityDirection * deltaTime
  { s with velocity := { s.velocity with y := clamp vy (-c.terminalVelocity) c.terminalVelocity } }

/-- CubeMode.update lines: decrement the coyote and jump-buffer timers. -/
def cubeTickTimers (s : PhysicsState) (deltaTime : ℚ) : PhysicsState :=
  let s1 :=
    if s.isGrounded = false ∧ 0 < s.coyoteTimeRemaining then
      { s with coyoteTimeRemaining := s.coyoteTimeRemaining - deltaTime }
    else s
  if s1.jumpBuffered = true ∧ 0 < s1.jumpBufferTimeRemaining then
    let t := s1.jumpBufferTimeRemaining - deltaTime
    if t ≤ 0 then { s1 with jumpBufferTimeRemaining := t, jumpBuffered := false }
    else { s1 with jumpBufferTimeRemaining := t }
  else s1

/-- CubeMode.update lines: jump-press handling, hold auto-jump, and the
buffered jump executed on landing, in source order. -/
def cubeHandleJump (s : PhysicsState) (input : InputState) (c : PhysicsConfig) : PhysicsState :=
  let canJump := s.isGrounded = true ∨ 0 < s.coyoteTimeRemaining
  let s1 :=
    if input.jumpPressed = true then
      if canJump then cubeExecuteJump s c
      else { s with jumpBuffered := true, jumpBufferTimeRemaining := c.jumpBuffer }
    else s
  let s2 :=
    if input.jumpHeld = true ∧ s1.isGrounded = true ∧ 0 ≤ s1.velocity.y then
      cubeExecuteJump s1 c
    else s1
  if s2.isGrounded = true ∧ s2.jumpBuffered = true ∧ 0 < s2.jumpBufferTimeRemaining then
    { cubeExecuteJump s2 c with jumpBuffered := false }
  else s2

/-- CubeMode.updateRotation: snap to the nearest 90 degrees when grounded,
otherwise integrate angular velocity and wrap into [0,360). -/
def cubeUpdateRotation (s : PhysicsState) (deltaTime : ℚ) : PhysicsState :=
  if s.isGrounded = true then
    { s with rotation := (jsRound (s.rotation / 90) : ℚ) * 90, angularVelocity := 0 }
  else
    { s with rotation := normalize360 (s.rotation + s.angularVelocity * deltaTime) }

/-- CubeMode.update: gravity and clamp, timers, jump handling, position
integration, rotation; a no-op when the state is dead. -/
def cubeUpdate (s : PhysicsState) (input : InputState) (deltaTime : ℚ)
    (c : PhysicsConfig) : PhysicsState :=
  if s.isDead = true then s
  else
    let s1 := cubeHandleJump (cubeTickTimers (cubeGravityClamp s deltaTime c) deltaTime) input c
    let s2 := { s1 with position := { s1.position with y := s1.position.y + s1.velocity.y * deltaTime } }
    cubeUpdateRotation s2 deltaTime

/-- ShipMode.updateRotation: tilt toward a velocity-proportional target,
eased at a fixed per-tick rate; no wrap into [0,360). -/
def shipUpdateRotation (s : PhysicsState) : PhysicsState :=
  let maxTilt : ℚ := 30
  let velocityFactor := s.velocity.y / 400
  let tilt := clamp (velocityFactor * maxTilt) (-maxTilt) maxTilt
  let targetRotation := if s.gravityInverted then -tilt else tilt
  let rotationSpeed : ℚ := 10
  let diff := targetRotation - s.rotation
  { s with rotation := s.rotation + diff * min (rotationSpeed * (16/1000)) 1 }

/-- ShipMode.update: thrust while held, else 0.4x gravity; clamp to 0.8x
terminal velocity; integrate position; tilt rotation. -/
def shipUpdate (s : PhysicsState) (input : InputState) (deltaTime : ℚ)
    (c : PhysicsConfig) : PhysicsState :=
  if s.isDead = true then s
  else
    let gravityDirection : ℚ := if s.gravityInverted then -1 else 1
    let shipGravity := c.gravity * PHYSICS.SHIP_GRAVITY_MULTIPLIER
    let vy :=
      if input.jumpHeld = true then
        s.velocity.y + PHYSICS.SHIP_THRUST_FORCE * (-gravityDirection) * deltaTime
      else
        s.velocity.y + shipGravity * gravityDirection * deltaTime
    let shipTerminalVelocity := c.terminalVelocity * (8/10)
    let s1 := { s with velocity :=
      { s.velocity with y := clamp vy (-shipTerminalVelocity) shipTerminalVelocity } }
    let s2 := { s1 with position := { s1.position with y := s1.position.y + s1.velocity.y * deltaTime } }
    shipUpdateRotation s2

/-- BallMode.flipGravity: toggle the flag, impulse at half the jump force in
the new gravity direction, grounded cleared. -/
def ballFlipGravity (s : PhysicsState) (c : PhysicsConfig) : PhysicsState :=
  let inverted := !s.gravityInverted
  { s with
    gravityInverted := inverted
    velocity := { s.velocity with y := c.jumpForce * (1/2) * (if inverted then -1 else 1) }
    isGrounded := false }

/-- BallMode.updateRotation: roll proportional to the horizontal speed tier,
wrapped into [0,360).  SPEEDS never maps to 0, so the JS fallback
(SPEEDS[state.speed] || SPEEDS.normal) is the plain lookup. -/
def ballUpdateRotation (s : PhysicsState) (deltaTime : ℚ) : PhysicsState :=
  let horizontalSpeed := SPEEDS s.speed
  let rotationPerPixel := 360 / (40 * MATH_PI)
  let rotationAmount := horizontalSpeed * rotationPerPixel * deltaTime
  let rollDirection : ℚ := if s.gravityInverted then -1 else 1
  { s with rotation := normalize360 (s.rotation + rotationAmount * rollDirection) }

/-- BallMode.update lines: apply gravity, then clamp to terminal velocity
(the same two statements as cube, in the ball source file). -/
def ballGravityClamp (s : PhysicsState) (deltaTime : ℚ) (c : PhysicsConfig) : PhysicsState :=
  let gravityDirection : ℚ := if s.gravityInverted then -1 else 1
  let vy := s.velocity.y + c.gravity * gravityDirection * deltaTime
  { s with velocity := { s.velocity with y := clamp vy (-c.terminalVelocity) c.terminalVelocity } }

/-- BallMode.update lines: flip gravity on a grounded jump-press edge. -/
def ballHandleFlip (s : PhysicsState) (input : InputState) (c : PhysicsConfig) : PhysicsState :=
  if input.jumpPressed = true ∧ s.isGrounded = true then ballFlipGravity s c else s

/-- BallMode.update: gravity, clamp, gravity flip on grounded press,
position integration, rolling rotation; a no-op when dead. -/
def ballUpdate (s : PhysicsState) (input : InputState) (deltaTime : ℚ)
    (c : PhysicsConfig) : PhysicsState :=
  if s.isDead = true then s
  else
    let s2 := ballHandleFlip (ballGravityClamp s deltaTime c) input c
    let s3 := { s2 with position := { s2.position with y := s2.position.y + s2.velocity.y * deltaTime } }
    ballUpdateRotation s3 deltaTime

/-- CubeMode.onEnter: set the mode id; zero angular velocity only when
grounded.  It does not touch the jump-buffer or coyote fields. -/
def cubeOnEnter (s : PhysicsState) : PhysicsState :=
  let s1 := { s with mode := PlayerModeType.cube }
  if s1.isGrounded = true then { s1 with angularVelocity := 0 } else s1

/-- ShipMode.onEnter: set the mode id, zero rotation and angular velocity,
clear the jump buffer and the coyote timer. -/
def shipOnEnter (s : PhysicsState) : PhysicsState :=
  { s with
    mode := PlayerModeType.ship
    rotation := 0
    angularVelocity := 0
    jumpBuffered := false
    jumpBufferTimeRemaining := 0
    coyoteTimeRemaining := 0 }

/-- BallMode.onEnter: set the mode id, zero angular velocity, clear the jump
buffer and the coyote timer. -/
def ballOnEnter (s : PhysicsState) : PhysicsState :=
  { s with
    mode := PlayerModeType.ball
    angularVelocity := 0
    jumpBuffered := false
    jumpBufferTimeRemaining := 0
    coyoteTimeRemaining := 0 }

/-- Mode dispatch for onEnter (Player.setMode switch reassigns the mode
singleton, then calls onEnter on it). -/
def modeOnEnter : PlayerModeType → PhysicsState → PhysicsState
  | .cube => cubeOnEnter
  | .ship => shipOnEnter
  | .ball => ballOnEnter

/-- All three onExit hooks are no-ops in the source. -/
def modeOnExit (_m : PlayerModeType) (s : PhysicsState) : PhysicsState := s

/-- Player.setMode: return unchanged when the mode is already active, else
call the old mode onExit and then the new mode onEnter. -/
def setMode (s : PhysicsState) (m : PlayerModeType) : PhysicsState :=
  if s.mode = m then s
  else modeOnEnter m (modeOnExit s.mode s)

/-- Mode dispatch for update (Player holds the active mode singleton, kept
in sync with state.mode by setMode). -/
def modeUpdate : PlayerModeType → PhysicsState → InputState → ℚ → PhysicsConfig → PhysicsState
  | .cube => cubeUpdate
  | .ship => shipUpdate
  | .ball => ballUpdate

/-- collision/AABB.ts AABB: left edge, top edge, width, height. -/
structure AABB where
  x : ℚ
  y : ℚ
  width : ℚ
  height : ℚ
deriving DecidableEq, Repr

/-- collision/AABB.ts CollisionResult. -/
structure CollisionResult where
  colliding : Bool
  overlapX : ℚ
  overlapY : ℚ
  normal : Vector2
deriving DecidableEq, Repr

/-- collision/AABB.ts checkAABBOverlap: strict comparisons, so edge-touching
boxes do not overlap. -/
def checkAABBOverlap (a b : AABB) : Bool :=
  decide (a.x < b.x + b.width ∧ b.x < a.x + a.width ∧ a.y < b.y + b.height ∧ b.y < a.y + a.height)

/-- The horizontal penetration depth computed inside getAABBCollision:
overlapX = aHalfWidth + bHalfWidth - abs (aCenterX - bCenterX). -/
def penetrationX (a b : AABB) : ℚ :=
  a.width / 2 + b.width / 2 - |a.x + a.width / 2 - (b.x + b.width / 2)|

/-- The vertical penetration depth computed inside getAABBCollision. -/
def penetrationY (a b : AABB) : ℚ :=
  a.height / 2 + b.height / 2 - |a.y + a.height / 2 - (b.y + b.height / 2)|

/-- collision/AABB.ts getAABBCollision: resolve on the axis of least
penetration; ties (overlapX = overlapY) fall to the vertical branch. -/
def getAABBCollision (a b : AABB) : CollisionResult :=
  let dx := a.x + a.width / 2 - (b.x + b.width / 2)
  let dy := a.y + a.height / 2 - (b.y + b.height / 2)
  let overlapX := a.width / 2 + b.width / 2 - |dx|
  let overlapY := a.height / 2 + b.height / 2 - |dy|
  if overlapX ≤ 0 ∨ overlapY ≤ 0 then
    { colliding := false, overlapX := 0, overlapY := 0, normal := ⟨0, 0⟩ }
  else if overlapX < overlapY then
    let normalX : ℚ := if 0 < dx then 1 else -1
    { colliding := true, overlapX := overlapX * normalX, overlapY := 0, normal := ⟨normalX, 0⟩ }
  else
    let normalY : ℚ := if 0 < dy then 1 else -1
    { colliding := true, overlapX := 0, overlapY := overlapY * normalY, normal := ⟨0, normalY⟩ }

/-- collision/AABB.ts createAABBFromCenter. -/
def createAABBFromCenter (centerX centerY width height : ℚ) : AABB :=
  { x := centerX - width / 2, y := centerY - height / 2, width := width, height := height }

/-- collision/AABB.ts scaleAABB: uniform scale about the center. -/
def scaleAABB (box : AABB) (scale : ℚ) : AABB :=
  let centerX := box.x + box.width / 2
  let centerY := box.y + box.height / 2
  let newWidth := box.width * scale
  let newHeight := box.height * scale
  { x := centerX - newWidth / 2, y := centerY - newHeight / 2, width := newWidth, height := newHeight }

/-- Obstacle kind tags (the generated ObjectTypeType union, as enumerated by
the collision classifier switch statements). -/
inductive ObjectType
  | block
  | spike
  | spikeInverted
  | padYellow
  | padPink
  | orbYellow
  | orbBlue
  | portalGravity
  | portalMode
  | portalSpeed
  | checkpoint
  | decoration
deriving DecidableEq, Repr

/-- physics/constants.ts CollisionLayer bit flags. -/
def CollisionLayer.NONE : ℕ := 0

/-- CollisionLayer.SOLID = 1 <<< 0. -/
def CollisionLayer.SOLID : ℕ := 1

/-- CollisionLayer.HAZARD = 1 <<< 1. -/
def CollisionLayer.HAZARD : ℕ := 2

/-- CollisionLayer.INTERACTIVE = 1 <<< 2. -/
def CollisionLayer.INTERACTIVE : ℕ := 4

/-- CollisionLayer.PORTAL = 1 <<< 3. -/
def CollisionLayer.PORTAL : ℕ := 8

/-- CollisionLayer.TRIGGER = 1 <<< 4. -/
def CollisionLayer.TRIGGER : ℕ := 16

/-- collision/index.ts Collidable: center position, extents, kind, layer,
active flag. -/
structure Collidable where
  x : ℚ
  y : ℚ
  width : ℚ
  height : ℚ
  type : ObjectType
  collisionLayer : ℕ
  active : Bool
deriving DecidableEq, Repr

/-- collision/index.ts CollisionEvent. -/
structure CollisionEvent where
  object : Collidable
  type : ObjectType
  collision : CollisionResult
  isHazard : Bool
  isSolid : Bool
  isInteractive : Bool
deriving DecidableEq, Repr

/-- collision/index.ts getHitboxScale (private switch). -/
def getHitboxScale : ObjectType → ℚ
  | .spike => HITBOXES.SPIKE
  | .spikeInverted => HITBOXES.SPIKE
  | .orbYellow => HITBOXES.ORB
  | .orbBlue => HITBOXES.ORB
  | .block => HITBOXES.BLOCK
  | _ => 1

/-- collision/index.ts getCollisionLayer. -/
def getCollisionLayer : ObjectType → ℕ
  | .block => CollisionLayer.SOLID
  | .spike => CollisionLayer.HAZARD
  | .spikeInverted => CollisionLayer.HAZARD
  | .padYellow => CollisionLayer.INTERACTIVE
  | .padPink => CollisionLayer.INTERACTIVE
  | .orbYellow => CollisionLayer.INTERACTIVE
  | .orbBlue => CollisionLayer.INTERACTIVE
  | .portalGravity => CollisionLayer.PORTAL
  | .portalMode => CollisionLayer.PORTAL
  | .portalSpeed => CollisionLayer.PORTAL
  | .checkpoint => CollisionLayer.TRIGGER
  | _ => CollisionLayer.NONE

/-- collision/index.ts getObjectHitbox. -/
def getObjectHitbox (obj : Collidable) : AABB :=
  scaleAABB (createAABBFromCenter obj.x obj.y obj.width obj.height) (getHitboxScale obj.type)

/-- collision/index.ts getPlayerHitbox. -/
def getPlayerHitbox (x y width height : ℚ) (isCube : Bool) : AABB :=
  scaleAABB (createAABBFromCenter x y width height)
    (if isCube then HITBOXES.PLAYER_CUBE else HITBOXES.PLAYER_SHIP)

/-- collision/index.ts checkPlayerObjectCollision: none for inactive or
layer-NONE objects or when the hitboxes do not overlap. -/
def checkPlayerObjectCollision (playerHitbox : AABB) (obj : Collidable) :
    Option CollisionEvent :=
  if obj.active = false ∨ obj.collisionLayer = CollisionLayer.NONE then none
  else
    let objectHitbox := getObjectHitbox obj
    if checkAABBOverlap playerHitbox objectHitbox = false then none
    else
      some
        { object := obj
          type := obj.type
          collision := getAABBCollision playerHitbox objectHitbox
          isHazard := decide (obj.collisionLayer &&& CollisionLayer.HAZARD ≠ 0)
          isSolid := decide (obj.collisionLayer &&& CollisionLayer.SOLID ≠ 0)
          isInteractive := decide (obj.collisionLayer &&& CollisionLayer.INTERACTIVE ≠ 0) }

/-- collision/index.ts checkPlayerCollisions: events in obstacle-list order. -/
def checkPlayerCollisions (playerHitbox : AABB) (objects : List Collidable) :
    List CollisionEvent :=
  objects.filterMap (checkPlayerObjectCollision playerHitbox)

/-- collision/index.ts checkGrounded: thin probe box below the feet against
active solids, or the default ground plane within the tolerance band. -/
def checkGrounded (playerHitbox : AABB) (objects : List Collidable)
    (tolerance : ℚ := 2) : Bool :=
  let groundCheckBox : AABB :=
    { x := playerHitbox.x + 2
      y := playerHitbox.y + playerHitbox.height
      width := playerHitbox.width - 4
      height := tolerance }
  (objects.any fun obj =>
    obj.active && decide (obj.collisionLayer &&& CollisionLayer.SOLID ≠ 0) &&
      checkAABBOverlap groundCheckBox (getObjectHitbox obj)) ||
  (let groundY := GRID.DEFAULT_GROUND_Y * GRID.UNIT_SIZE
   let playerBottom := playerHitbox.y + playerHitbox.height
   decide (groundY - tolerance ≤ playerBottom ∧ playerBottom ≤ groundY + tolerance))

/-- Player.die: mark the state dead (already-dead states return early; the
visible state effect is the same). -/
def die (s : PhysicsState) : PhysicsState :=
  if s.isDead = true then s else { s with isDead := true }

/-- Player.processCollisions: stop at the first hazard (die); for a solid
with a nonzero vertical normal, push the position out by the signed overlap
and zero velocity.y only when its sign opposes the push. -/
def processCollisions (s : PhysicsState) : List CollisionEvent → PhysicsState
  | [] => s
  | e :: rest =>
    if e.isHazard = true then die s
    else
      let s1 :=
        if e.isSolid = true ∧ e.collision.normal.y ≠ 0 then
          let pushed := { s with position :=
            { s.position with y := s.position.y - e.collision.overlapY * e.collision.normal.y } }
          if 0 < e.collision.normal.y then
            if 0 < pushed.velocity.y then
              { pushed with velocity := { pushed.velocity with y := 0 } }
            else pushed
          else
            if pushed.velocity.y < 0 then
              { pushed with velocity := { pushed.velocity with y := 0 } }
            else pushed
        else s
      processCollisions s1 rest

/-- Player.applyGroundConstraint: clamp position.y to the default ground
plane; on clamping also zero velocity.y and set grounded. -/
def applyGroundConstraint (s : PhysicsState) : PhysicsState :=
  let groundY := GRID.DEFAULT_GROUND_Y * GRID.UNIT_SIZE - SIZES.PLAYER / 2
  if groundY < s.position.y then
    { s with
      position := { s.position with y := groundY }
      velocity := { s.velocity with y := 0 }
      isGrounded := true }
  else s

/-- Player.onLanding: snap rotation to the nearest 90 degrees and zero the
angular velocity (the landing event emission carries no state). -/
def onLanding (s : PhysicsState) : PhysicsState :=
  { s with rotation := (jsRound (s.rotation / 90) : ℚ) * 90, angularVelocity := 0 }

/-- Player.update on a live state, up to but not including the final ground
constraint: audio-clock horizontal reposition, mode update, collision query
and resolution, grounded recomputation, landing bookkeeping, coyote arming.
The Player object fields startX, currentSpeed and its physics config are
explicit arguments; currentMode is dispatched on the state mode id, which
setMode keeps in sync with the active-mode reference. -/
def playerPreConstraint (startX currentSpeed : ℚ) (c : PhysicsConfig)
    (s : PhysicsState) (input : InputState) (deltaTime : ℚ) (audioTime : Option ℚ)
    (levelObjects : List Collidable) : PhysicsState :=
  let wasInAir := !s.isGrounded
  let s1 :=
    match audioTime with
    | some t => { s with position := { s.position with x := startX + t * currentSpeed } }
    | none => s
  let s2 := modeUpdate s1.mode s1 input deltaTime c
  let hitbox := getPlayerHitbox s2.position.x s2.position.y SIZES.PLAYER SIZES.PLAYER
    (s2.mode = PlayerModeType.cube)
  let collisions := checkPlayerCollisions hitbox levelObjects
  let s3 := processCollisions s2 collisions
  let wasGroundedLastFrame := s3.isGrounded
  let s4 := { s3 with isGrounded := checkGrounded hitbox levelObjects }
  let s5 := if wasInAir = true ∧ s4.isGrounded = true then onLanding s4 else s4
  if wasGroundedLastFrame = true ∧ s5.isGrounded = false then
    { s5 with coyoteTimeRemaining := c.coyoteTime }
  else s5

/-- Player.update: a no-op when dead, otherwise the pre-constraint pipeline
followed by the ground constraint (visual sync carries no physics state). -/
def playerUpdate (startX currentSpeed : ℚ) (c : PhysicsConfig)
    (s : PhysicsState) (input : InputState) (deltaTime : ℚ) (audioTime : Option ℚ)
    (levelObjects : List Collidable) : PhysicsState :=
  if s.isDead = true then s
  else applyGroundConstraint
    (playerPreConstraint startX currentSpeed c s input deltaTime audioTime levelObjects)

/-! Helper lemmas about the arithmetic models. -/

theorem jsRem_bounds (a b : ℚ) (hb : 0 < b) : -b < jsRem a b ∧ jsRem a b < b := by
  have hbne : b ≠ 0 := ne_of_gt hb
  have hcancel : b * (a / b) = a := by field_simp
  unfold jsRem ratTrunc
  split_ifs with h
  · have hf0 : (0 : ℚ) ≤ a / b - (⌊a / b⌋ : ℚ) := sub_nonneg.mpr (Int.floor_le _)
    have hf1 : a / b - (⌊a / b⌋ : ℚ) < 1 := by
      have := Int.lt_floor_add_one (a / b); linarith
    have h0 : (0 : ℚ) ≤ b * (a / b - (⌊a / b⌋ : ℚ)) := mul_nonneg hb.le hf0
    have h1 : b * (a / b - (⌊a / b⌋ : ℚ)) < b * 1 := mul_lt_mul_of_pos_left hf1 hb
    have heq : a - b * (⌊a / b⌋ : ℚ) = b * (a / b - (⌊a / b⌋ : ℚ)) := by
      rw [mul_sub, hcancel]
    constructor <;> nlinarith
  · have hf0 : a / b - (⌈a / b⌉ : ℚ) ≤ 0 := sub_nonpos.mpr (Int.le_ceil _)
    have hf1 : -1 < a / b - (⌈a / b⌉ : ℚ) := by
      have := Int.ceil_lt_add_one (a / b); linarith
    have h0 : b * (a / b - (⌈a / b⌉ : ℚ)) ≤ 0 := mul_nonpos_of_nonneg_of_nonpos hb.le hf0
    have h1 : b * (-1) < b * (a / b - (⌈a / b⌉ : ℚ)) := mul_lt_mul_of_pos_left hf1 hb
    have heq : a - b * (⌈a / b⌉ : ℚ) = b * (a / b - (⌈a / b⌉ : ℚ)) := by
      rw [mul_sub, hcancel]
    constructor <;> nlinarith

theorem jsRem_nonneg (a b : ℚ) (ha : 0 ≤ a) (hb : 0 < b) : 0 ≤ jsRem a b := by
  have hbne : b ≠ 0 := ne_of_gt hb
  have hcancel : b * (a / b) = a := by field_simp
  have h : 0 ≤ a / b := div_nonneg ha hb.le
  unfold jsRem ratTrunc
  rw [if_pos h]
  have hf0 : (0 : ℚ) ≤ a / b - (⌊a / b⌋ : ℚ) := sub_nonneg.mpr (Int.floor_le _)
  nlinarith [mul_nonneg hb.le hf0]

theorem normalize360_bounds (r : ℚ) : 0 ≤ normalize360 r ∧ normalize360 r < 360 := by
  unfold normalize360
  have h1 := jsRem_bounds r 360 (by norm_num)
  have h2 : (0 : ℚ) ≤ jsRem r 360 + 360 := by linarith [h1.1]
  refine ⟨jsRem_nonneg _ _ h2 (by norm_num), ?_⟩
  exact (jsRem_bounds (jsRem r 360 + 360) 360 (by norm_num)).2

theorem clamp_abs_le (v T : ℚ) (hT : 0 ≤ T) : |clamp v (-T) T| ≤ T := by
  unfold clamp
  rw [abs_le]
  exact ⟨le_max_left _ _, max_le (by linarith) (min_le_left _ _)⟩
/-! Field-preservation lemmas for the tick pipeline. -/

theorem die_isDead (s : PhysicsState) : (die s).isDead = true := by
  unfold die; split_ifs with h <;> first | exact h | rfl

theorem die_position (s : PhysicsState) : (die s).position = s.position := by
  unfold die; split_ifs <;> rfl

theorem cubeExecuteJump_position (s : PhysicsState) (c : PhysicsConfig) :
    (cubeExecuteJump s c).position = s.position := rfl

theorem cubeExecuteJump_velocity_abs (s : PhysicsState) (c : PhysicsConfig) :
    |(cubeExecuteJump s c).velocity.y| = |c.jumpForce| := by
  unfold cubeExecuteJump
  split_ifs <;> simp [abs_mul]

theorem cubeGravityClamp_position (s : PhysicsState) (dt : ℚ) (c : PhysicsConfig) :
    (cubeGravityClamp s dt c).position = s.position := rfl

theorem cubeTickTimers_position (s : PhysicsState) (dt : ℚ) :
    (cubeTickTimers s dt).position = s.position := by
  simp only [cubeTickTimers]
  split_ifs <;> rfl

theorem cubeTickTimers_velocity (s : PhysicsState) (dt : ℚ) :
    (cubeTickTimers s dt).velocity = s.velocity := by
  simp only [cubeTickTimers]
  split_ifs <;> rfl

theorem cubeHandleJump_position (s : PhysicsState) (i : InputState) (c : PhysicsConfig) :
    (cubeHandleJump s i c).position = s.position := by
  simp only [cubeHandleJump, cubeExecuteJump]
  split_ifs <;> rfl

theorem cubeUpdateRotation_position (s : PhysicsState) (dt : ℚ) :
    (cubeUpdateRotation s dt).position = s.position := by
  unfold cubeUpdateRotation; split_ifs <;> rfl

theorem cubeUpdateRotation_velocity (s : PhysicsState) (dt : ℚ) :
    (cubeUpdateRotation s dt).velocity = s.velocity := by
  unfold cubeUpdateRotation; split_ifs <;> rfl

theorem cubeUpdateRotation_isGrounded (s : PhysicsState) (dt : ℚ) :
    (cubeUpdateRotation s dt).isGrounded = s.isGrounded := by
  unfold cubeUpdateRotation; split_ifs <;> rfl

theorem cubeUpdate_position_x (s : PhysicsState) (i : InputState) (dt : ℚ) (c : PhysicsConfig) :
    (cubeUpdate s i dt c).position.x = s.position.x := by
  simp only [cubeUpdate]
  split_ifs with h
  · rfl
  · simp only [cubeUpdateRotation_position, cubeHandleJump_position, cubeTickTimers_position,
      cubeGravityClamp_position]

theorem shipUpdate_position_x (s : PhysicsState) (i : InputState) (dt : ℚ) (c : PhysicsConfig) :
    (shipUpdate s i dt c).position.x = s.position.x := by
  simp only [shipUpdate, shipUpdateRotation]
  split_ifs <;> rfl

theorem ballUpdate_position_x (s : PhysicsState) (i : InputState) (dt : ℚ) (c : PhysicsConfig) :
    (ballUpdate s i dt c).position.x = s.position.x := by
  simp only [ballUpdate, ballUpdateRotation, ballHandleFlip, ballGravityClamp, ballFlipGravity]
  split_ifs <;> rfl

theorem modeUpdate_position_x (m : PlayerModeType) (s : PhysicsState) (i : InputState)
    (dt : ℚ) (c : PhysicsConfig) : (modeUpdate m s i dt c).position.x = s.position.x := by
  cases m
  · exact cubeUpdate_position_x s i dt c
  · exact shipUpdate_position_x s i dt c
  · exact ballUpdate_position_x s i dt c

theorem processCollisions_position_x (s : PhysicsState) (evs : List CollisionEvent) :
    (processCollisions s evs).position.x = s.position.x := by
  induction evs generalizing s with
  | nil => rfl
  | cons e rest ih =>
    by_cases h : e.isHazard = true
    · simp only [processCollisions, if_pos h, die_position]
    · simp only [processCollisions, if_neg h]
      rw [ih]
      split_ifs <;> rfl

theorem onLanding_position (s : PhysicsState) : (onLanding s).position = s.position := rfl

theorem applyGroundConstraint_position_x (s : PhysicsState) :
    (applyGroundConstraint s).position.x = s.position.x := by
  simp only [applyGroundConstraint]
  split_ifs <;> rfl

theorem playerPreConstraint_position_x (startX currentSpeed : ℚ) (c : PhysicsConfig)
    (s : PhysicsState) (input : InputState) (dt t : ℚ) (objs : List Collidable) :
    (playerPreConstraint startX currentSpeed c s input dt (some t) objs).position.x =
      startX + t * currentSpeed := by
  simp only [playerPreConstraint]
  split_ifs <;>
    simp only [onLanding_position, processCollisions_position_x, modeUpdate_position_x]

theorem applyGroundConstraint_spec (s : PhysicsState) :
    (applyGroundConstraint s).position.y ≤ GRID.DEFAULT_GROUND_Y * GRID.UNIT_SIZE - SIZES.PLAYER / 2
    ∧ (GRID.DEFAULT_GROUND_Y * GRID.UNIT_SIZE - SIZES.PLAYER / 2 < s.position.y →
        (applyGroundConstraint s).velocity.y = 0 ∧ (applyGroundConstraint s).isGrounded = true) := by
  simp only [applyGroundConstraint]
  split_ifs with h
  · exact ⟨le_refl _, fun _ => ⟨rfl, rfl⟩⟩
  · exact ⟨le_of_not_lt h, fun hc => absurd hc h⟩

theorem cubeGravityClamp_isGrounded (s : PhysicsState) (dt : ℚ) (c : PhysicsConfig) :
    (cubeGravityClamp s dt c).isGrounded = s.isGrounded := rfl

theorem cubeGravityClamp_gravityInverted (s : PhysicsState) (dt : ℚ) (c : PhysicsConfig) :
    (cubeGravityClamp s dt c).gravityInverted = s.gravityInverted := rfl

theorem cubeTickTimers_isGrounded (s : PhysicsState) (dt : ℚ) :
    (cubeTickTimers s dt).isGrounded = s.isGrounded := by
  simp only [cubeTickTimers]
  split_ifs <;> rfl

theorem cubeTickTimers_gravityInverted (s : PhysicsState) (dt : ℚ) :
    (cubeTickTimers s dt).gravityInverted = s.gravityInverted := by
  simp only [cubeTickTimers]
  split_ifs <;> rfl

theorem cubeExecuteJump_isGrounded (s : PhysicsState) (c : PhysicsConfig) :
    (cubeExecuteJump s c).isGrounded = false := rfl

theorem cubeHandleJump_pressed_grounded (s : PhysicsState) (i : InputState) (c : PhysicsConfig)
    (hg : s.isGrounded = true) (hp : i.jumpPressed = true) (hh : i.jumpHeld = false) :
    cubeHandleJump s i c = cubeExecuteJump s c := by
  simp [cubeHandleJump, hp, hg, hh, cubeExecuteJump_isGrounded]

/-- C7: with a supplied music time, the horizontal position after the full
tick is exactly startX + musicTime * currentSpeed; no other step of the
tick (mode update, collision resolution, ground constraint) touches
position.x. -/
theorem player_music_time_fixes_position_x (startX currentSpeed : ℚ) (c : PhysicsConfig)
    (s : PhysicsState) (input : InputState) (dt t : ℚ) (objs : List Collidable)
    (hlive : s.isDead = false) :
    (playerUpdate startX currentSpeed c s input dt (some t) objs).position.x =
      startX + t * currentSpeed := by
  simp only [playerUpdate]
  rw [if_neg (by rw [hlive]; exact Bool.false_ne_true)]
  rw [applyGroundConstraint_position_x, playerPreConstraint_position_x]

theorem player_music_time_fixes_position_x_witness :
    (playerUpdate 120 (31158/100) createDefaultPhysicsConfig
      { createDefaultPhysicsState with isGrounded := true }
      ⟨false, false, false⟩ (1/60) (some (1/2)) []).position.x = 120 + (1/2) * (31158/100) :=
  player_music_time_fixes_position_x 120 (31158/100) createDefaultPhysicsConfig
    { createDefaultPhysicsState with isGrounded := true } ⟨false, false, false⟩ (1/60) (1/2) [] rfl

/-- C8: updating a dead player leaves the whole physics state unchanged. -/
theorem player_update_dead_noop (startX currentSpeed : ℚ) (c : PhysicsConfig)
    (s : PhysicsState) (input : InputState) (dt : ℚ) (audioTime : Option ℚ)
    (objs : List Collidable) (hdead : s.isDead = true) :
    playerUpdate startX currentSpeed c s input dt audioTime objs = s := by
  simp only [playerUpdate, if_pos hdead]

theorem player_update_dead_noop_witness :
    playerUpdate 0 (31158/100) createDefaultPhysicsConfig
      { createDefaultPhysicsState with isDead := true, position := ⟨7, 9⟩ }
      ⟨true, true, false⟩ (1/60) (some 3) [] =
      { createDefaultPhysicsState with isDead := true, position := ⟨7, 9⟩ } :=
  player_update_dead_noop 0 (31158/100) createDefaultPhysicsConfig
    { createDefaultPhysicsState with isDead := true, position := ⟨7, 9⟩ }
    ⟨true, true, false⟩ (1/60) (some 3) [] rfl

/-- C10: after a completed tick on a live player, position.y is at most the
default ground plane DEFAULT_GROUND_Y * UNIT_SIZE - PLAYER/2; when the tick
clamps to that bound it also zeroes velocity.y and sets grounded. -/
theorem player_update_ground_plane (startX currentSpeed : ℚ) (c : PhysicsConfig)
    (s : PhysicsState) (input : InputState) (dt : ℚ) (audioTime : Option ℚ)
    (objs : List Collidable) (hlive : s.isDead = false) :
    (playerUpdate startX currentSpeed c s input dt audioTime objs).position.y ≤
        GRID.DEFAULT_GROUND_Y * GRID.UNIT_SIZE - SIZES.PLAYER / 2
    ∧ (GRID.DEFAULT_GROUND_Y * GRID.UNIT_SIZE - SIZES.PLAYER / 2 <
          (playerPreConstraint startX currentSpeed c s input dt audioTime objs).position.y →
        (playerUpdate startX currentSpeed c s input dt audioTime objs).velocity.y = 0
        ∧ (playerUpdate startX currentSpeed c s input dt audioTime objs).isGrounded = true) := by
  simp only [playerUpdate]
  rw [if_neg (by rw [hlive]; exact Bool.false_ne_true)]
  exact applyGroundConstraint_spec _

theorem player_update_ground_plane_witness :
    (playerUpdate 120 (31158/100) createDefaultPhysicsConfig
        { createDefaultPhysicsState with position := ⟨0, 10000⟩ }
        ⟨false, false, false⟩ (1/60) none []).position.y ≤
      GRID.DEFAULT_GROUND_Y * GRID.UNIT_SIZE - SIZES.PLAYER / 2
    ∧ (GRID.DEFAULT_GROUND_Y * GRID.UNIT_SIZE - SIZES.PLAYER / 2 <
          (playerPreConstraint 120 (31158/100) createDefaultPhysicsConfig
            { createDefaultPhysicsState with position := ⟨0, 10000⟩ }
            ⟨false, false, false⟩ (1/60) none []).position.y →
        (playerUpdate 120 (31158/100) createDefaultPhysicsConfig
          { createDefaultPhysicsState with position := ⟨0, 10000⟩ }
          ⟨false, false, false⟩ (1/60) none []).velocity.y = 0
        ∧ (playerUpdate 120 (31158/100) createDefaultPhysicsConfig
            { createDefaultPhysicsState with position := ⟨0, 10000⟩ }
            ⟨false, false, false⟩ (1/60) none []).isGrounded = true) :=
  player_update_ground_plane 120 (31158/100) createDefaultPhysicsConfig
    { createDefaultPhysicsState with position := ⟨0, 10000⟩ }
    ⟨false, false, false⟩ (1/60) none [] rfl

/-- C5, Scenario A: from rest, grounded, normal gravity, live, one cube
tick with the default config, deltaTime 1/60, a jump-press edge and no
hold yields velocity.y = -800 and grounded cleared. -/
theorem cube_scenario_a (s : PhysicsState) (p : Bool)
    (hv : s.velocity.y = 0) (hg : s.isGrounded = true)
    (hinv : s.gravityInverted = false) (hd : s.isDead = false) :
    (cubeUpdate s ⟨true, false, p⟩ (1/60) createDefaultPhysicsConfig).velocity.y = -800
    ∧ (cubeUpdate s ⟨true, false, p⟩ (1/60) createDefaultPhysicsConfig).isGrounded = false := by
  have hBg : (cubeTickTimers (cubeGravityClamp s (1/60) createDefaultPhysicsConfig)
      (1/60)).isGrounded = true := by
    rw [cubeTickTimers_isGrounded, cubeGravityClamp_isGrounded, hg]
  have hBinv : (cubeTickTimers (cubeGravityClamp s (1/60) createDefaultPhysicsConfig)
      (1/60)).gravityInverted = false := by
    rw [cubeTickTimers_gravityInverted, cubeGravityClamp_gravityInverted, hinv]
  simp only [cubeUpdate]
  rw [if_neg (by rw [hd]; exact Bool.false_ne_true)]
  rw [cubeHandleJump_pressed_grounded _ _ _ hBg rfl rfl]
  constructor
  · rw [cubeUpdateRotation_velocity]
    show (cubeExecuteJump (cubeTickTimers (cubeGravityClamp s (1/60) createDefaultPhysicsConfig)
      (1/60)) createDefaultPhysicsConfig).velocity.y = -800
    simp only [cubeExecuteJump, hBinv]
    norm_num [createDefaultPhysicsConfig]
  · rw [cubeUpdateRotation_isGrounded]
    rfl

theorem cube_scenario_a_witness :
    (cubeUpdate { createDefaultPhysicsState with isGrounded := true }
        ⟨true, false, false⟩ (1/60) createDefaultPhysicsConfig).velocity.y = -800
    ∧ (cubeUpdate { createDefaultPhysicsState with isGrounded := true }
        ⟨true, false, false⟩ (1/60) createDefaultPhysicsConfig).isGrounded = false :=
  cube_scenario_a { createDefaultPhysicsState with isGrounded := true } false rfl rfl rfl rfl

theorem shipUpdateRotation_velocity (s : PhysicsState) :
    (shipUpdateRotation s).velocity = s.velocity := rfl

theorem ballUpdateRotation_velocity (s : PhysicsState) (dt : ℚ) :
    (ballUpdateRotation s dt).velocity = s.velocity := rfl

theorem cubeHandleJump_velocity_bound (s : PhysicsState) (i : InputState) (c : PhysicsConfig)
    (T : ℚ) (hs : |s.velocity.y| ≤ T) (hj : |c.jumpForce| ≤ T) :
    |(cubeHandleJump s i c).velocity.y| ≤ T := by
  simp only [cubeHandleJump]
  split_ifs <;> simp_all [cubeExecuteJump_velocity_abs]

theorem cubeUpdate_velocity_bound (s : PhysicsState) (i : InputState) (dt : ℚ)
    (c : PhysicsConfig) (hd : s.isDead = false) (hj0 : 0 ≤ c.jumpForce)
    (hjT : c.jumpForce ≤ c.terminalVelocity) :
    |(cubeUpdate s i dt c).velocity.y| ≤ c.terminalVelocity := by
  have hT : 0 ≤ c.terminalVelocity := le_trans hj0 hjT
  simp only [cubeUpdate]
  rw [if_neg (by rw [hd]; exact Bool.false_ne_true)]
  rw [cubeUpdateRotation_velocity]
  show |(cubeHandleJump (cubeTickTimers (cubeGravityClamp s dt c) dt) i c).velocity.y| ≤
    c.terminalVelocity
  apply cubeHandleJump_velocity_bound
  · rw [cubeTickTimers_velocity]
    show |clamp (s.velocity.y + c.gravity * (if s.gravityInverted then (-1 : ℚ) else 1) * dt)
      (-c.terminalVelocity) c.terminalVelocity| ≤ c.terminalVelocity
    exact clamp_abs_le _ _ hT
  · rwa [abs_of_nonneg hj0]

theorem shipUpdate_velocity_bound (s : PhysicsState) (i : InputState) (dt : ℚ)
    (c : PhysicsConfig) (hd : s.isDead = false) (hT : 0 ≤ c.terminalVelocity) :
    |(shipUpdate s i dt c).velocity.y| ≤ c.terminalVelocity * (8/10) := by
  simp only [shipUpdate]
  rw [if_neg (by rw [hd]; exact Bool.false_ne_true)]
  rw [shipUpdateRotation_velocity]
  show |clamp
      (if i.jumpHeld = true then
        s.velocity.y + PHYSICS.SHIP_THRUST_FORCE * (-(if s.gravityInverted then (-1 : ℚ) else 1)) * dt
      else
        s.velocity.y + c.gravity * PHYSICS.SHIP_GRAVITY_MULTIPLIER *
          (if s.gravityInverted then (-1 : ℚ) else 1) * dt)
      (-(c.terminalVelocity * (8/10))) (c.terminalVelocity * (8/10))| ≤ c.terminalVelocity * (8/10)
  exact clamp_abs_le _ _ (by nlinarith)

theorem ballUpdate_velocity_bound (s : PhysicsState) (i : InputState) (dt : ℚ)
    (c : PhysicsConfig) (hd : s.isDead = false) (hj0 : 0 ≤ c.jumpForce)
    (hjT : c.jumpForce ≤ c.terminalVelocity) :
    |(ballUpdate s i dt c).velocity.y| ≤ c.terminalVelocity := by
  have hT : 0 ≤ c.terminalVelocity := le_trans hj0 hjT
  have hclamp : |(ballGravityClamp s dt c).velocity.y| ≤ c.terminalVelocity := by
    show |clamp (s.velocity.y + c.gravity * (if s.gravityInverted then (-1 : ℚ) else 1) * dt)
      (-c.terminalVelocity) c.terminalVelocity| ≤ c.terminalVelocity
    exact clamp_abs_le _ _ hT
  have hflip : ∀ u : PhysicsState, |(ballFlipGravity u c).velocity.y| ≤ c.terminalVelocity := by
    intro u
    show |c.jumpForce * (1/2) * (if !u.gravityInverted then (-1 : ℚ) else 1)| ≤ c.terminalVelocity
    have h12 : |(1/2 : ℚ)| = 1/2 := by norm_num
    split_ifs <;>
      simp only [abs_mul, h12, abs_of_nonneg hj0, abs_neg, abs_one] <;> linarith
  simp only [ballUpdate]
  rw [if_neg (by rw [hd]; exact Bool.false_ne_true)]
  rw [ballUpdateRotation_velocity]
  show |(ballHandleFlip (ballGravityClamp s dt c) i c).velocity.y| ≤ c.terminalVelocity
  simp only [ballHandleFlip]
  split_ifs with h
  · exact hflip _
  · exact hclamp

/-- C2 amended: for a live state and any config whose jump impulse does not
exceed the terminal velocity (as the default config satisfies: 800 <= 1200),
one update of each mode leaves |velocity.y| within the mode-scaled terminal
velocity (1.0x for cube and ball, 0.8x for ship).  The restriction is
necessary: the jump branches assign the signed jump impulse after the clamp,
so a config with jumpForce above terminalVelocity escapes the bound, and the
externally triggered impulse setters assign an arbitrary force with no clamp
at all until the next mode update. -/
theorem mode_update_terminal_velocity (s : PhysicsState) (i : InputState) (dt : ℚ)
    (c : PhysicsConfig) (hd : s.isDead = false) (hj0 : 0 ≤ c.jumpForce)
    (hjT : c.jumpForce ≤ c.terminalVelocity) :
    |(cubeUpdate s i dt c).velocity.y| ≤ c.terminalVelocity
    ∧ |(ballUpdate s i dt c).velocity.y| ≤ c.terminalVelocity
    ∧ |(shipUpdate s i dt c).velocity.y| ≤ c.terminalVelocity * (8/10) :=
  ⟨cubeUpdate_velocity_bound s i dt c hd hj0 hjT,
   ballUpdate_velocity_bound s i dt c hd hj0 hjT,
   shipUpdate_velocity_bound s i dt c hd (le_trans hj0 hjT)⟩

theorem mode_update_terminal_velocity_witness :
    |(cubeUpdate createDefaultPhysicsState ⟨true, true, false⟩ (1/60)
        createDefaultPhysicsConfig).velocity.y| ≤ createDefaultPhysicsConfig.terminalVelocity
    ∧ |(ballUpdate createDefaultPhysicsState ⟨true, true, false⟩ (1/60)
        createDefaultPhysicsConfig).velocity.y| ≤ createDefaultPhysicsConfig.terminalVelocity
    ∧ |(shipUpdate createDefaultPhysicsState ⟨true, true, false⟩ (1/60)
        createDefaultPhysicsConfig).velocity.y| ≤
        createDefaultPhysicsConfig.terminalVelocity * (8/10) :=
  mode_update_terminal_velocity createDefaultPhysicsState ⟨true, true, false⟩ (1/60)
    createDefaultPhysicsConfig rfl (by norm_num [createDefaultPhysicsConfig])
    (by norm_num [createDefaultPhysicsConfig])

/-- C2 counterexample: the bound does not hold for every config.  With
jumpForce 2000 above terminalVelocity 100, a grounded jump-press tick in
cube mode ends with velocity.y = -2000, beyond the 1.0x-scaled terminal
velocity, because the jump assignment happens after the clamp. -/
theorem terminal_velocity_counterexample :
    ¬ (|(cubeUpdate { createDefaultPhysicsState with isGrounded := true }
        ⟨true, false, false⟩ (1/60)
        ⟨2600, 2000, 100, 8/100, 1/10⟩).velocity.y| ≤ 1 * 100) := by
  have hBg : (cubeTickTimers (cubeGravityClamp
      { createDefaultPhysicsState with isGrounded := true } (1/60)
      ⟨2600, 2000, 100, 8/100, 1/10⟩) (1/60)).isGrounded = true := by
    rw [cubeTickTimers_isGrounded, cubeGravityClamp_isGrounded]
  have hBinv : (cubeTickTimers (cubeGravityClamp
      { createDefaultPhysicsState with isGrounded := true } (1/60)
      ⟨2600, 2000, 100, 8/100, 1/10⟩) (1/60)).gravityInverted = false := by
    rw [cubeTickTimers_gravityInverted, cubeGravityClamp_gravityInverted]
    rfl
  simp only [cubeUpdate]
  rw [if_neg (by simp [createDefaultPhysicsState])]
  rw [cubeHandleJump_pressed_grounded _ _ _ hBg rfl rfl]
  rw [cubeUpdateRotation_velocity]
  show ¬ (|(cubeExecuteJump (cubeTickTimers (cubeGravityClamp
      { createDefaultPhysicsState with isGrounded := true } (1/60)
      ⟨2600, 2000, 100, 8/100, 1/10⟩) (1/60)) ⟨2600, 2000, 100, 8/100, 1/10⟩).velocity.y| ≤ 1 * 100)
  simp only [cubeExecuteJump, hBinv]
  norm_num

theorem ballUpdateRotation_bounds (s : PhysicsState) (dt : ℚ) :
    0 ≤ (ballUpdateRotation s dt).rotation ∧ (ballUpdateRotation s dt).rotation < 360 :=
  normalize360_bounds _

/-- C3 amended: ball mode normalizes rotation into [0,360) on every live
update, and cube mode does so whenever the update ends airborne (the
airborne rotation branch wraps).  The claim fails as stated for the other
cases: the grounded cube snap rounds to a multiple of 90 that can be
exactly 360, and ship mode only eases a tilt, which can leave rotation
outside [0,360) (see the counterexample). -/
theorem rotation_normalization_amended :
    (∀ (s : PhysicsState) (i : InputState) (dt : ℚ) (c : PhysicsConfig), s.isDead = false →
      0 ≤ (ballUpdate s i dt c).rotation ∧ (ballUpdate s i dt c).rotation < 360)
    ∧ (∀ (s : PhysicsState) (i : InputState) (dt : ℚ) (c : PhysicsConfig), s.isDead = false →
      (cubeUpdate s i dt c).isGrounded = false →
      0 ≤ (cubeUpdate s i dt c).rotation ∧ (cubeUpdate s i dt c).rotation < 360) := by
  constructor
  · intro s i dt c hd
    simp only [ballUpdate]
    rw [if_neg (by rw [hd]; exact Bool.false_ne_true)]
    exact ballUpdateRotation_bounds _ _
  · intro s i dt c hd hg
    simp only [cubeUpdate] at hg ⊢
    rw [if_neg (by rw [hd]; exact Bool.false_ne_true)] at hg ⊢
    rw [cubeUpdateRotation_isGrounded] at hg
    unfold cubeUpdateRotation
    rw [if_neg (by rw [hg]; exact Bool.false_ne_true)]
    exact normalize360_bounds _

theorem rotation_normalization_amended_witness :
    (0 ≤ (ballUpdate createDefaultPhysicsState ⟨false, false, false⟩ (1/60)
        createDefaultPhysicsConfig).rotation
      ∧ (ballUpdate createDefaultPhysicsState ⟨false, false, false⟩ (1/60)
        createDefaultPhysicsConfig).rotation < 360) :=
  rotation_normalization_amended.1 createDefaultPhysicsState ⟨false, false, false⟩ (1/60)
    createDefaultPhysicsConfig rfl

/-- C3 counterexample: one live ship update from the state produced by
shipOnEnter of the default state (rotation 0, velocity 0), with thrust held
and deltaTime 1/60, ends with rotation = -3/25, outside [0,360). -/
theorem rotation_normalization_counterexample :
    (shipUpdate (shipOnEnter createDefaultPhysicsState) ⟨false, true, false⟩ (1/60)
      createDefaultPhysicsConfig).rotation < 0 := by
  norm_num [shipUpdate, shipOnEnter, shipUpdateRotation, createDefaultPhysicsState,
    createDefaultPhysicsConfig, clamp, PHYSICS.SHIP_THRUST_FORCE,
    PHYSICS.SHIP_GRAVITY_MULTIPLIER, min_def, max_def]

/-- C1 amended: a Hazard event halts collision processing and kills the
player, so it takes priority over every event after it in the event list:
when the first event is a Hazard the tick sets isDead with the position
untouched, and a Hazard anywhere in the list always yields isDead.  The
priority does not reach events before the hazard: a Solid earlier in the
obstacle list applies its push-out before the death (see the
counterexample), so order in the supplied list matters. -/
theorem hazard_priority_amended :
    (∀ (s : PhysicsState) (e : CollisionEvent) (es : List CollisionEvent),
      e.isHazard = true →
        (processCollisions s (e :: es)).isDead = true
        ∧ (processCollisions s (e :: es)).position = s.position)
    ∧ (∀ (s : PhysicsState) (evs : List CollisionEvent),
      (∃ e ∈ evs, e.isHazard = true) → (processCollisions s evs).isDead = true) := by
  constructor
  · intro s e es he
    simp only [processCollisions, if_pos he]
    exact ⟨die_isDead s, die_position s⟩
  · intro s evs
    induction evs generalizing s with
    | nil => rintro ⟨e, he, _⟩; cases he
    | cons e rest ih =>
      rintro ⟨f, hf, hfh⟩
      by_cases h : e.isHazard = true
      · simp only [processCollisions, if_pos h]
        exact die_isDead s
      · simp only [processCollisions, if_neg h]
        rcases List.mem_cons.mp hf with rfl | hmem
        · exact absurd hfh h
        · exact ih _ ⟨f, hmem, hfh⟩

theorem hazard_priority_amended_witness :
    (processCollisions createDefaultPhysicsState
      [⟨⟨0, 0, 40, 40, ObjectType.spike, CollisionLayer.HAZARD, true⟩, ObjectType.spike,
        ⟨true, 0, 5, ⟨0, 1⟩⟩, true, false, false⟩]).isDead = true
    ∧ (processCollisions createDefaultPhysicsState
      [⟨⟨0, 0, 40, 40, ObjectType.spike, CollisionLayer.HAZARD, true⟩, ObjectType.spike,
        ⟨true, 0, 5, ⟨0, 1⟩⟩, true, false, false⟩]).position =
      createDefaultPhysicsState.position :=
  hazard_priority_amended.1 createDefaultPhysicsState
    ⟨⟨0, 0, 40, 40, ObjectType.spike, CollisionLayer.HAZARD, true⟩, ObjectType.spike,
      ⟨true, 0, 5, ⟨0, 1⟩⟩, true, false, false⟩ [] rfl

/-- The player state of the C1 counterexample: live cube at (100, 100). -/
def cexPlayerState : PhysicsState := { createDefaultPhysicsState with position := ⟨100, 100⟩ }

/-- The C1 counterexample solid: an active block centered at (100, 120). -/
def cexBlock : Collidable := ⟨100, 120, 40, 40, ObjectType.block, CollisionLayer.SOLID, true⟩

/-- The C1 counterexample hazard: an active spike centered at (100, 100). -/
def cexSpike : Collidable := ⟨100, 100, 40, 40, ObjectType.spike, CollisionLayer.HAZARD, true⟩

/-- The collision events of the C1 counterexample tick, solid first. -/
def cexEvents : List CollisionEvent :=
  checkPlayerCollisions (getPlayerHitbox 100 100 40 40 true) [cexBlock, cexSpike]

/-- C1 counterexample: the player hitbox overlaps one active Solid and one
active Hazard in the same tick, with the Solid first in the obstacle list;
the resolution sets isDead but the position has moved (100 to 82) by the
push-out of the Solid, refuting the in-any-order claim. -/
theorem hazard_priority_counterexample :
    (cexEvents.map fun e => (e.isHazard, e.isSolid)) = [(false, true), (true, false)]
    ∧ (processCollisions cexPlayerState cexEvents).isDead = true
    ∧ (processCollisions cexPlayerState cexEvents).position.y = 82
    ∧ cexPlayerState.position.y = 100 := by
  norm_num [cexEvents, cexPlayerState, cexBlock, cexSpike, checkPlayerCollisions,
    checkPlayerObjectCollision, getPlayerHitbox, getObjectHitbox, createAABBFromCenter,
    scaleAABB, getHitboxScale, checkAABBOverlap, getAABBCollision, processCollisions, die,
    createDefaultPhysicsState, CollisionLayer.HAZARD, CollisionLayer.SOLID, CollisionLayer.NONE,
    HITBOXES.PLAYER_CUBE, HITBOXES.BLOCK, HITBOXES.SPIKE,
    List.filterMap_cons, List.filterMap_nil, List.map_cons, List.map_nil]

/-- C4 amended: setMode runs the old mode onExit and the new mode onEnter,
and every onEnter sets the state mode id; ship and ball onEnter clear the
jump-buffer state and the coyote timer, but cube onEnter leaves all three
fields unchanged (it only zeroes angular velocity when grounded), refuting
the every-mode clearing claim (see the counterexample). -/
theorem mode_switch_amended (s : PhysicsState) (m : PlayerModeType) (hne : s.mode ≠ m) :
    (setMode s m).mode = m
    ∧ ((m = PlayerModeType.ship ∨ m = PlayerModeType.ball) →
        (setMode s m).jumpBuffered = false
        ∧ (setMode s m).jumpBufferTimeRemaining = 0
        ∧ (setMode s m).coyoteTimeRemaining = 0)
    ∧ (m = PlayerModeType.cube →
        (setMode s m).jumpBuffered = s.jumpBuffered
        ∧ (setMode s m).jumpBufferTimeRemaining = s.jumpBufferTimeRemaining
        ∧ (setMode s m).coyoteTimeRemaining = s.coyoteTimeRemaining) := by
  simp only [setMode, if_neg hne]
  cases m <;>
    simp [modeOnEnter, modeOnExit, cubeOnEnter, shipOnEnter, ballOnEnter] <;>
    split_ifs <;> simp_all

/-- The C4 witness state: a cube-mode state with a pending jump buffer. -/
def cexCubeBuffered : PhysicsState :=
  { createDefaultPhysicsState with mode := PlayerModeType.cube, jumpBuffered := true }

theorem mode_switch_amended_witness :
    (setMode cexCubeBuffered PlayerModeType.ball).mode = PlayerModeType.ball
    ∧ ((PlayerModeType.ball = PlayerModeType.ship ∨ PlayerModeType.ball = PlayerModeType.ball) →
        (setMode cexCubeBuffered PlayerModeType.ball).jumpBuffered = false
        ∧ (setMode cexCubeBuffered PlayerModeType.ball).jumpBufferTimeRemaining = 0
        ∧ (setMode cexCubeBuffered PlayerModeType.ball).coyoteTimeRemaining = 0)
    ∧ (PlayerModeType.ball = PlayerModeType.cube →
        (setMode cexCubeBuffered PlayerModeType.ball).jumpBuffered = cexCubeBuffered.jumpBuffered
        ∧ (setMode cexCubeBuffered PlayerModeType.ball).jumpBufferTimeRemaining =
            cexCubeBuffered.jumpBufferTimeRemaining
        ∧ (setMode cexCubeBuffered PlayerModeType.ball).coyoteTimeRemaining =
            cexCubeBuffered.coyoteTimeRemaining) :=
  mode_switch_amended cexCubeBuffered PlayerModeType.ball
    (by simp [cexCubeBuffered, createDefaultPhysicsState])

/-- The C4 counterexample state: ship mode with a pending jump buffer and a
running coyote timer. -/
def cexShipBuffered : PhysicsState :=
  { createDefaultPhysicsState with
    mode := PlayerModeType.ship
    jumpBuffered := true
    jumpBufferTimeRemaining := 1/20
    coyoteTimeRemaining := 3/100 }

/-- C4 counterexample: switching from ship to cube with a pending jump
buffer and coyote timer: cube onEnter does not clear them, so after setMode
the buffer flag is still set and the coyote timer still 3/100, against the
claim that every mode onEnter clears both. -/
theorem mode_switch_counterexample :
    (setMode cexShipBuffered PlayerModeType.cube).jumpBuffered = true
    ∧ (setMode cexShipBuffered PlayerModeType.cube).jumpBufferTimeRemaining = 1/20
    ∧ (setMode cexShipBuffered PlayerModeType.cube).coyoteTimeRemaining = 3/100 := by
  simp [setMode, modeOnEnter, modeOnExit, cubeOnEnter, cexShipBuffered,
    createDefaultPhysicsState]

/-- C6: when the two penetration depths are exactly equal (and positive, so
the boxes overlap), getAABBCollision takes the vertical branch: the normal
is (0, +-1), overlapX is 0 and overlapY carries the signed vertical
overlap. -/
theorem aabb_tie_break_vertical (a b : AABB)
    (heq : penetrationX a b = penetrationY a b) (hpos : 0 < penetrationX a b) :
    (getAABBCollision a b).normal.x = 0
    ∧ ((getAABBCollision a b).normal.y = 1 ∨ (getAABBCollision a b).normal.y = -1)
    ∧ (getAABBCollision a b).overlapX = 0
    ∧ (getAABBCollision a b).overlapY = penetrationY a b * (getAABBCollision a b).normal.y := by
  have hpy : 0 < penetrationY a b := heq ▸ hpos
  unfold penetrationX at heq hpos
  unfold penetrationY at heq hpy ⊢
  simp only [getAABBCollision]
  rw [if_neg (by push_neg; exact ⟨hpos, hpy⟩)]
  rw [if_neg (by rw [heq]; exact lt_irrefl _)]
  split_ifs with hdy
  · exact ⟨rfl, Or.inl rfl, rfl, rfl⟩
  · exact ⟨rfl, Or.inr rfl, rfl, rfl⟩

theorem aabb_tie_break_vertical_witness :
    (getAABBCollision ⟨0, 0, 10, 10⟩ ⟨5, 5, 10, 10⟩).normal.x = 0
    ∧ ((getAABBCollision ⟨0, 0, 10, 10⟩ ⟨5, 5, 10, 10⟩).normal.y = 1
        ∨ (getAABBCollision ⟨0, 0, 10, 10⟩ ⟨5, 5, 10, 10⟩).normal.y = -1)
    ∧ (getAABBCollision ⟨0, 0, 10, 10⟩ ⟨5, 5, 10, 10⟩).overlapX = 0
    ∧ (getAABBCollision ⟨0, 0, 10, 10⟩ ⟨5, 5, 10, 10⟩).overlapY =
        penetrationY ⟨0, 0, 10, 10⟩ ⟨5, 5, 10, 10⟩ *
          (getAABBCollision ⟨0, 0, 10, 10⟩ ⟨5, 5, 10, 10⟩).normal.y :=
  aabb_tie_break_vertical ⟨0, 0, 10, 10⟩ ⟨5, 5, 10, 10⟩
    (by norm_num [penetrationX, penetrationY]) (by norm_num [penetrationX])

theorem checkAABBOverlap_iff (a b : AABB) :
    checkAABBOverlap a b = true ↔ (0 < penetrationX a b ∧ 0 < penetrationY a b) := by
  unfold checkAABBOverlap penetrationX penetrationY
  rw [decide_eq_true_eq]
  constructor
  · rintro ⟨h1, h2, h3, h4⟩
    constructor
    · rw [sub_pos, abs_lt]
      constructor <;> linarith
    · rw [sub_pos, abs_lt]
      constructor <;> linarith
  · rintro ⟨h1, h2⟩
    rw [sub_pos, abs_lt] at h1 h2
    refine ⟨?_, ?_, ?_, ?_⟩ <;> linarith [h1.1, h1.2, h2.1, h2.2]

/-- C9: getAABBCollision reports colliding exactly when checkAABBOverlap
holds (both strict: edge-touching boxes count in neither), and a colliding
result carries one of the four unit axis normals with exactly one nonzero
signed overlap. -/
theorem aabb_collision_agrees_overlap (a b : AABB) :
    ((getAABBCollision a b).colliding = checkAABBOverlap a b)
    ∧ ((getAABBCollision a b).colliding = true →
        ((getAABBCollision a b).normal = ⟨1, 0⟩ ∨ (getAABBCollision a b).normal = ⟨-1, 0⟩
          ∨ (getAABBCollision a b).normal = ⟨0, 1⟩ ∨ (getAABBCollision a b).normal = ⟨0, -1⟩)
        ∧ (((getAABBCollision a b).overlapX ≠ 0 ∧ (getAABBCollision a b).overlapY = 0)
          ∨ ((getAABBCollision a b).overlapX = 0 ∧ (getAABBCollision a b).overlapY ≠ 0))) := by
  have hiff := checkAABBOverlap_iff a b
  unfold penetrationX penetrationY at hiff
  simp only [getAABBCollision]
  split_ifs with h1 hxy hdx hdy
  · constructor
    · rcases Bool.eq_false_or_eq_true (checkAABBOverlap a b) with hb | hb
      · exfalso
        rcases hiff.mp hb with ⟨p1, p2⟩
        rcases h1 with h | h <;> linarith
      · rw [hb]
    · intro hco
      simp at hco
  · push_neg at h1
    refine ⟨?_, fun _ => ⟨Or.inl rfl, Or.inl ⟨?_, rfl⟩⟩⟩
    · symm
      rw [hiff]
      exact h1
    · have := h1.1
      intro h0
      nlinarith
  · push_neg at h1
    refine ⟨?_, fun _ => ⟨Or.inr (Or.inl rfl), Or.inl ⟨?_, rfl⟩⟩⟩
    · symm
      rw [hiff]
      exact h1
    · have := h1.1
      intro h0
      nlinarith
  · push_neg at h1
    refine ⟨?_, fun _ => ⟨Or.inr (Or.inr (Or.inl rfl)), Or.inr ⟨rfl, ?_⟩⟩⟩
    · symm
      rw [hiff]
      exact h1
    · have := h1.2
      intro h0
      nlinarith
  · push_neg at h1
    refine ⟨?_, fun _ => ⟨Or.inr (Or.inr (Or.inr rfl)), Or.inr ⟨rfl, ?_⟩⟩⟩
    · symm
      rw [hiff]
      exact h1
    · have := h1.2
      intro h0
      nlinarith

theorem aabb_collision_agrees_overlap_witness :
    ((getAABBCollision ⟨0, 0, 10, 10⟩ ⟨9, 2, 10, 10⟩).colliding =
        checkAABBOverlap ⟨0, 0, 10, 10⟩ ⟨9, 2, 10, 10⟩)
    ∧ ((getAABBCollision ⟨0, 0, 10, 10⟩ ⟨9, 2, 10, 10⟩).colliding = true →
        ((getAABBCollision ⟨0, 0, 10, 10⟩ ⟨9, 2, 10, 10⟩).normal = ⟨1, 0⟩
          ∨ (getAABBCollision ⟨0, 0, 10, 10⟩ ⟨9, 2, 10, 10⟩).normal = ⟨-1, 0⟩
          ∨ (getAABBCollision ⟨0, 0, 10, 10⟩ ⟨9, 2, 10, 10⟩).normal = ⟨0, 1⟩
          ∨ (getAABBCollision ⟨0, 0, 10, 10⟩ ⟨9, 2, 10, 10⟩).normal = ⟨0, -1⟩)
        ∧ (((getAABBCollision ⟨0, 0, 10, 10⟩ ⟨9, 2, 10, 10⟩).overlapX ≠ 0
            ∧ (getAABBCollision ⟨0, 0, 10, 10⟩ ⟨9, 2, 10, 10⟩).overlapY = 0)
          ∨ ((getAABBCollision ⟨0, 0, 10, 10⟩ ⟨9, 2, 10, 10⟩).overlapX = 0
            ∧ (getAABBCollision ⟨0, 0, 10, 10⟩ ⟨9, 2, 10, 10⟩).overlapY ≠ 0))) :=
  aabb_collision_agrees_overlap ⟨0, 0, 10, 10⟩ ⟨9, 2, 10, 10⟩
